import Mathlib

/-!
Shallow embedding of the AttendMark backend attendance admission engine
(`src/controllers/attendanceController.ts`: `markAttendance`, `forceMarkAttendance`)
together with the parts of its environment the controller reads: the session,
user and attendance documents, the organization-settings provider, and the
external MapmyIndia location-verification contract (`verifyLocation`), which is
modelled as an oracle parameter of the environment.

Conventions of the embedding:
* JS timestamps are `Int` milliseconds since the Unix epoch.  The server runs
  in UTC, so JS `Date` component operations (`setHours(0,0,0,0)`,
  `new Date(y,m,d)`, `getDay`, `toLocaleTimeString`) are day-arithmetic on
  milliseconds; `%` on `Int` is `Int.emod`, which matches the floor/day
  truncation these operations perform.
* JS numbers appearing in guards are exact rationals (`Rat`); a field that may
  be absent or non-numeric (including `NaN`) is an `Option Rat`.
  `timeDifferenceMinutes = timeDifferenceMs / (1000*60)` is the exact rational
  `Rat.divInt tdMs 60000`, and `Math.floor` on it is `Rat.floor`.
* A JS string field that may be absent or of the wrong runtime type is an
  `Option String`; JS string falsiness (`!s`) is `none` or `some ""`.
* The external `verifyLocation` either throws (any API/validation failure) or
  resolves with a result; both are constructors of `VerifyOutcome`.
-/

namespace AttendMark

/-! ## Clock and time-zone arithmetic -/

/-- Milliseconds in one day. -/
def msPerDay : Int := 86400000

/-- IST offset used by the controller: `5.5 * 60 * 60 * 1000`. -/
def istOffsetMs : Int := 19800000

/-- Truncate an instant to the start of its (server-local = UTC) calendar day:
the effect of `new Date(t).setHours(0,0,0,0)` and of
`new Date(d.getFullYear(), d.getMonth(), d.getDate())` on a UTC server. -/
def dayStart (t : Int) : Int := t - t % msPerDay

/-- JS `Date.prototype.getDay()` (0 = Sunday): the Unix epoch fell on a
Thursday, hence the `+ 4`. -/
def jsGetDay (t : Int) : Int := ((t / msPerDay) + 4) % 7

/-- The `dayNames` array of the controller. -/
def dayNames : List String :=
  ["Sunday", "Monday", "Tuesday", "Wednesday", "Thursday", "Friday", "Saturday"]

/-- `dayNames[nowInIST.getDay()]`. -/
def todayDayName (t : Int) : String := dayNames.getD (jsGetDay t).toNat ""

/-- Two-digit minute padding used by `toLocaleTimeString(..., minute: '2-digit')`. -/
def pad2 (n : Nat) : String := if n < 10 then "0" ++ toString n else toString n

/-- `toLocaleTimeString('en-US', {hour: 'numeric', minute: '2-digit', hour12: true})`
on a UTC server: 12-hour clock with AM/PM. -/
def formatTime12h (t : Int) : String :=
  let msOfDay := (t % msPerDay).toNat
  let h := msOfDay / 3600000
  let m := (msOfDay % 3600000) / 60000
  let h12 := if h % 12 = 0 then 12 else h % 12
  let ampm := if h < 12 then "AM" else "PM"
  s!"{h12}:{pad2 m} {ampm}"

/-- JS string falsiness for an optional string field: `!s` is true for
`undefined`/`null` and for the empty string. -/
def jsFalsyStr : Option String → Bool
  | none => true
  | some s => s == ""

/-- JS `s.trim() === ''`: every character of the string is whitespace. -/
def trimIsEmpty (s : String) : Bool := s.data.all (fun c => c.isWhitespace)

/-! ## Data model -/

/-- `session.frequency`. -/
inductive Frequency where
  | oneTime
  | daily
  | weekly
  | monthly
deriving DecidableEq, Repr

/-- `session.sessionType`. -/
inductive SessionType where
  | physical
  | remote
  | hybrid
deriving DecidableEq, Repr

/-- `assignedUsers[i].mode`. -/
inductive AssignMode where
  | physical
  | remote
deriving DecidableEq, Repr

/-- A geofence polygon (`session.geofence.coordinates`), GeoJSON style. -/
abbrev GeoPoly := List (List (Rat × Rat))

/-- The session's location descriptor (`session.location`): a `COORDS` or
`LINK` style descriptor with optional resolved coordinates.  The admission
engine in the reviewed controller never reads this field. -/
structure LocationDescriptor where
  descType : String
  geolocation : Option (Rat × Rat)
  link : Option String
deriving DecidableEq, Repr

/-- One entry of `session.assignedUsers`. -/
structure Assignment where
  userId : String
  mode : AssignMode
deriving DecidableEq, Repr

/-- The session document fields the attendance controller reads. -/
structure Session where
  frequency : Frequency
  /-- `session.startDate` as an instant. -/
  startDate : Int
  /-- `session.endDate`, optional. -/
  endDate : Option Int
  /-- Hour parsed from `session.startTime` (`HH:mm`, IST civil time). -/
  startHour : Nat
  /-- Minute parsed from `session.startTime`. -/
  startMinute : Nat
  sessionType : SessionType
  /-- `session.weeklyDays`; an absent field behaves like the empty list
  (both fail the `weeklyDays && weeklyDays.length > 0` guard). -/
  weeklyDays : List String
  city : Option String
  stateName : Option String
  /-- `session.geofence?.coordinates`. -/
  geofence : Option GeoPoly
  location : Option LocationDescriptor
  assignedUsers : List Assignment
deriving DecidableEq, Repr

/-- The user document fields the attendance controller reads. -/
structure User where
  id : String
  registeredDeviceId : Option String
  registeredUserAgent : Option String
deriving DecidableEq, Repr

/-- Reverse-geocode snapshot carried by a verification result. -/
structure ReverseGeocode where
  city : String
  stateName : String
  locality : String
  district : String
  pincode : String
  fullAddress : String
deriving DecidableEq, Repr

/-- The value object returned by `verifyLocation`.  Fields the controller
defensively type-checks at runtime are `Option`s. -/
structure LocationVerificationResult where
  isValid : Bool
  confidenceScore : Option Rat
  accuracyRadius : Option Rat
  reverseGeocode : Option ReverseGeocode
  geofenceResult : Option (Bool × Rat)
deriving DecidableEq, Repr

/-- Outcome of one call to the external `verifyLocation` contract: it either
throws (any API, network, confidence, city or geofence failure), resolves with
`null`, or resolves with a result object. -/
inductive VerifyOutcome where
  | throws (msg : String)
  | returnsNull
  | returns (r : LocationVerificationResult)
deriving DecidableEq, Repr

/-- An attendance record document. -/
structure Attendance where
  userId : String
  sessionId : String
  checkInTime : Int
  locationVerified : Bool
  isLate : Bool
  lateByMinutes : Option Int
  userLocation : Option (Rat × Rat)
  deviceId : String
  reverseGeocodeSnapshot : Option ReverseGeocode
  confidenceScore : Option Rat
  accuracyRadius : Option Rat
deriving DecidableEq, Repr

/-- The check-in request surface of `markAttendance` (body plus authenticated
identity). `sessionIdValid` models `mongoose.Types.ObjectId.isValid(sessionId)`. -/
structure ScanRequest where
  userId : String
  role : String
  sessionId : String
  sessionIdValid : Bool
  /-- `req.body.userLocation`: `none` when absent or not an object; each
  coordinate is `none` when absent or non-numeric. -/
  userLocation : Option (Option Rat × Option Rat)
  deviceId : Option String
  userAgent : Option String
  /-- `req.body.accuracy`: `none` when absent, non-numeric or `NaN`. -/
  accuracy : Option Rat
deriving Repr

/-- Outcome of the organization-settings lookup: the provider threw, found no
settings document, or found one. -/
inductive SettingsOutcome where
  | unavailable
  | notFound
  | found (lateAttendanceLimit : Rat) (isStrictAttendance : Option Bool)
deriving DecidableEq, Repr

/-- Effective `(lateAttendanceLimit, isStrictAttendance)`: defaults 30 minutes
and non-strict, overwritten only when a settings document is found; a missing
`isStrictAttendance` falls back to `false` (`settings.isStrictAttendance || false`). -/
def effectiveSettings : SettingsOutcome → Rat × Bool
  | .unavailable => (30, false)
  | .notFound => (30, false)
  | .found l s => (l, s.getD false)

/-- The environment of one `markAttendance` call: current server time, the
documents the controller fetches, and the external verification oracle, keyed
by the exact arguments the controller passes
(`latitude, longitude, accuracyRadius, session.city, session.state,
session.geofence?.coordinates`). -/
structure Env where
  nowUTC : Int
  user : Option User
  session : Option Session
  db : List Attendance
  settings : SettingsOutcome
  verify : Rat → Rat → Rat → Option String → Option String → Option GeoPoly → VerifyOutcome

/-- Machine-readable rejection reasons of the admission pipeline (the `reason`
codes and distinguishable `msg`-only rejections of the controller). -/
inductive Reason where
  | missingDeviceId
  | missingUserAgent
  | missingLocation
  | invalidLocationCoords
  | invalidLocationZero
  | missingAccuracy
  | invalidAccuracy
  | platformOwnerForbidden
  | invalidSessionId
  | userNotFound
  | sessionNotFound
  | notScheduledToday
  | duplicateAttendance
  | tooEarly (hoursRemaining minutesRemaining : Int)
      (sessionStartFormatted scanWindowFormatted : String)
  | strictModeLate (minutesLate secondsLate : Int)
  | notAssigned
  | mapmyindiaVerificationFailed (msg : String)
  | locationVerificationFailed
  | missingVerificationResult
  | locationNotVerified
  | invalidVerificationResult
  | incompleteVerificationData
  | internalError
  | deviceMismatch
  | cloningDetected
deriving DecidableEq, Repr

/-- Result of one `markAttendance` call: an HTTP rejection, or a created
attendance record together with the (possibly newly device-bound) saved user. -/
inductive ScanResult where
  | rejected (status : Nat) (reason : Reason)
  | created (record : Attendance) (userAfter : User)
deriving DecidableEq, Repr

/-- A `markAttendance` outcome plus whether the external `verifyLocation`
contract was invoked during the attempt. -/
structure MarkOutcome where
  result : ScanResult
  verifyCalled : Bool
deriving DecidableEq, Repr

/-! ## Stage 1: raw payload validation (controller lines 54–111) -/

/-- The validated payload extracted by the strict-validation block. -/
structure ValidPayload where
  lat : Rat
  lng : Rat
  acc : Rat
  deviceId : String
  userAgent : String
deriving DecidableEq, Repr

/-- The strict-validation block at the top of `markAttendance`, in source
order: device id, user agent, location object, numeric coordinates, the (0,0)
sentinel, numeric accuracy, and the accuracy range `(0, 1000]`. -/
def validatePayload (req : ScanRequest) : Except (Nat × Reason) ValidPayload :=
  match req.deviceId with
  | none => .error (400, .missingDeviceId)
  | some d =>
    if trimIsEmpty d then .error (400, .missingDeviceId)
    else
      match req.userAgent with
      | none => .error (400, .missingUserAgent)
      | some ua =>
        if trimIsEmpty ua then .error (400, .missingUserAgent)
        else
          match req.userLocation with
          | none => .error (400, .missingLocation)
          | some (latOpt, lngOpt) =>
            match latOpt, lngOpt with
            | some lat, some lng =>
              if lat = 0 ∧ lng = 0 then .error (400, .invalidLocationZero)
              else
                match req.accuracy with
                | none => .error (400, .missingAccuracy)
                | some acc =>
                  if acc ≤ 0 ∨ acc > 1000 then .error (400, .invalidAccuracy)
                  else .ok ⟨lat, lng, acc, d, ua⟩
            | _, _ => .error (400, .invalidLocationCoords)

/-! ## Stage 2: session schedule resolver (controller lines 173–215) -/

/-- `isSessionDateToday` as computed by the controller: one-time sessions
match on the calendar day of `startDate`; recurring sessions match when today
is inside `[startDate, endDate end-of-day]`, with weekly sessions additionally
requiring today's weekday name to be listed — but only when `weeklyDays` is
present and non-empty. -/
def isSessionDateToday (s : Session) (todayIST nowIST : Int) : Bool :=
  match s.frequency with
  | .oneTime => dayStart s.startDate == todayIST
  | _ =>
    let sessionStartDay := dayStart s.startDate
    let sessionEndDay := s.endDate.map (fun e => dayStart e + (msPerDay - 1))
    let isWithinDateRange :=
      decide (sessionStartDay ≤ todayIST) &&
        (match sessionEndDay with
         | none => true
         | some e => decide (todayIST ≤ e))
    if isWithinDateRange then
      if s.frequency == .weekly && !s.weeklyDays.isEmpty then
        s.weeklyDays.contains (todayDayName nowIST)
      else true
    else false

/-- Occurs-today as the specification states it: a Weekly session occurs today
iff today is within the date range AND today's weekday name is a member of
`weeklyDays` (with no special case for an empty `weeklyDays`). -/
def occursTodaySpec (s : Session) (todayIST nowIST : Int) : Bool :=
  let sessionStartDay := dayStart s.startDate
  let inRange :=
    decide (sessionStartDay ≤ todayIST) &&
      (match s.endDate with
       | none => true
       | some e => decide (todayIST ≤ dayStart e + (msPerDay - 1)))
  match s.frequency with
  | .oneTime => dayStart s.startDate == todayIST
  | .weekly => inRange && s.weeklyDays.contains (todayDayName nowIST)
  | _ => inRange

/-! ## Stage 3: duplicate / idempotency check (controller lines 217–250) -/

/-- The duplicate lookup: for one-time sessions any record with this user and
session matches; for recurring sessions a record matches when its
`checkInTime` lies inside today's IST day converted to UTC bounds. -/
def duplicateExists (db : List Attendance) (userId sessionId : String)
    (freq : Frequency) (todayIST : Int) : Bool :=
  match freq with
  | .oneTime => db.any (fun r => r.userId == userId && r.sessionId == sessionId)
  | _ =>
    let todayStartUTC := todayIST - istOffsetMs
    let todayEndUTC := todayIST + (msPerDay - 1) - istOffsetMs
    db.any (fun r =>
      r.userId == userId && r.sessionId == sessionId &&
        decide (todayStartUTC ≤ r.checkInTime) && decide (r.checkInTime ≤ todayEndUTC))

/-- The IST calendar day (as its midnight instant) in which a UTC
`checkInTime` falls — the specification's "local calendar day" key. -/
def istDayOf (checkInUTC : Int) : Int := dayStart (checkInUTC + istOffsetMs)

/-! ## Stage 4: early window and lateness (controller lines 252–337) -/

/-- Today's concrete session start instant: the session's date (one-time) or
today (recurring), with the parsed `startTime` set via `setHours`. -/
def sessionStartDateTime (s : Session) (todayIST : Int) : Int :=
  match s.frequency with
  | .oneTime => dayStart s.startDate + s.startHour * 3600000 + s.startMinute * 60000
  | _ => todayIST + s.startHour * 3600000 + s.startMinute * 60000

/-- The two-hour early-scan window check.  Returns the `TOO_EARLY` rejection
payload when `nowInIST < scanWindowStart`, and `none` when the window is open. -/
def tooEarlyCheck (nowIST ssdt : Int) : Option Reason :=
  let scanWindowStart := ssdt - 2 * 3600000
  if nowIST < scanWindowStart then
    let timeTillWindowMs := scanWindowStart - nowIST
    some (.tooEarly (timeTillWindowMs / 3600000) ((timeTillWindowMs % 3600000) / 60000)
      (formatTime12h ssdt) (formatTime12h scanWindowStart))
  else none

/-- Outcome of the late-marking logic: a strict-mode rejection, or a
proceed decision carrying `isLate` and `lateByMinutes`. -/
inductive LatenessOutcome where
  | rejectStrict (minutesLate secondsLate : Int)
  | proceed (isLate : Bool) (lateByMinutes : Option Int)
deriving DecidableEq, Repr

/-- The late-marking logic with strict mode.  `timeDifferenceMinutes` is the
exact rational `(nowIST − sessionStart) / 60000`; `timeDifferenceSeconds` is
`Math.floor((timeDifferenceMs % 60000) / 1000)` with the JS (truncated) `%`. -/
def classifyLateness (nowIST ssdt : Int) (lateLimit : Rat) (strict : Bool) :
    LatenessOutcome :=
  let timeDifferenceMs : Int := nowIST - ssdt
  let timeDifferenceMinutes : Rat := Rat.divInt timeDifferenceMs 60000
  let timeDifferenceSeconds : Int := Int.fdiv (Int.tmod timeDifferenceMs 60000) 1000
  if 0 < timeDifferenceMinutes ∧ timeDifferenceMinutes ≤ lateLimit then
    .proceed true (some timeDifferenceMinutes.floor)
  else if lateLimit < timeDifferenceMinutes then
    if strict then .rejectStrict timeDifferenceMinutes.floor timeDifferenceSeconds
    else .proceed true (some timeDifferenceMinutes.floor)
  else .proceed false none

/-! ## Stage 5: location verification gate (controller lines 339–513) -/

/-- Requiredness of location verification from the session type and this
user's assignment mode. -/
def isLocationRequired (st : SessionType) (mode : AssignMode) : Bool :=
  match st with
  | .physical => true
  | .hybrid => mode == AssignMode.physical
  | .remote => false

/-- The location-verification gate: when required it calls the oracle with the
attempt's exact coordinates/accuracy and the session's city, state and
geofence; a thrown error, a null or invalid result, or missing result fields
are hard 403 rejections.  When not required it is a no-op that marks the
attempt verified.  The `Bool` records whether the oracle was invoked. -/
def locationGate (env : Env) (p : ValidPayload) (session : Session)
    (isLocReq : Bool) : Except Reason (Option LocationVerificationResult) × Bool :=
  if isLocReq then
    match env.verify p.lat p.lng p.acc session.city session.stateName session.geofence with
    | .throws msg => (.error (.mapmyindiaVerificationFailed msg), true)
    | .returnsNull =>
      (.error (.mapmyindiaVerificationFailed
        "FATAL: Location verification returned invalid result"), true)
    | .returns r =>
      if !r.isValid then
        (.error (.mapmyindiaVerificationFailed
          "FATAL: Location verification returned invalid result"), true)
      else if r.confidenceScore.isNone || r.accuracyRadius.isNone ||
          r.reverseGeocode.isNone then
        (.error (.mapmyindiaVerificationFailed
          "FATAL: Required verification data missing"), true)
      else (.ok (some r), true)
  else (.ok none, false)

/-! ## Stage 6: device binding guard (controller lines 515–547) -/

/-- The device-locking check: a user without a (truthy) registered device id
has the presented device id and user agent stored and is allowed; a returning
user is rejected on a device-id mismatch, then on a user-agent mismatch when a
(truthy) user agent was registered. -/
def deviceCheck (user : User) (deviceId userAgent : String) : Except Reason User :=
  if jsFalsyStr user.registeredDeviceId then
    .ok { user with registeredDeviceId := some deviceId,
                    registeredUserAgent := some userAgent }
  else if user.registeredDeviceId ≠ some deviceId then
    .error .deviceMismatch
  else if !jsFalsyStr user.registeredUserAgent ∧
      user.registeredUserAgent ≠ some userAgent then
    .error .cloningDetected
  else .ok user

/-! ## Stage 7: commit (controller lines 549–660) -/

/-- The commit-time assertions and record construction: when location was
required, re-assert the verified flag, the presence and validity of the
verification result and its fields, copy the audit snapshot, and re-check the
copied fields; then build the attendance record. -/
def commitAttendance (req : ScanRequest) (env : Env) (p : ValidPayload)
    (isLocReq locationVerified : Bool)
    (verRes : Option LocationVerificationResult)
    (isLate : Bool) (lateBy : Option Int) (userAfter : User) (vc : Bool) : MarkOutcome :=
  let base : Attendance :=
    { userId := req.userId
      sessionId := req.sessionId
      checkInTime := env.nowUTC
      locationVerified := locationVerified
      isLate := isLate
      lateByMinutes := lateBy
      userLocation := some (p.lat, p.lng)
      deviceId := p.deviceId
      reverseGeocodeSnapshot := none
      confidenceScore := none
      accuracyRadius := none }
  if isLocReq then
    if !locationVerified then
      ⟨.rejected 403 .locationNotVerified, vc⟩
    else
      match verRes with
      | none => ⟨.rejected 403 .missingVerificationResult, vc⟩
      | some r =>
        if !r.isValid then
          ⟨.rejected 403 .invalidVerificationResult, vc⟩
        else if r.confidenceScore.isNone || r.accuracyRadius.isNone ||
            r.reverseGeocode.isNone then
          ⟨.rejected 403 .incompleteVerificationData, vc⟩
        else
          let rec' : Attendance :=
            { base with
                reverseGeocodeSnapshot := r.reverseGeocode
                confidenceScore := r.confidenceScore
                accuracyRadius := r.accuracyRadius }
          if rec'.reverseGeocodeSnapshot.isNone || rec'.confidenceScore.isNone ||
              rec'.accuracyRadius.isNone then
            ⟨.rejected 500 .internalError, vc⟩
          else ⟨.created rec' userAfter, vc⟩
  else ⟨.created base userAfter, vc⟩

/-- The tail of the pipeline from the location gate onwards: location
verification, the two post-gate assertions, the device guard, and the commit. -/
def locationDeviceCommit (req : ScanRequest) (env : Env) (p : ValidPayload)
    (user : User) (session : Session) (isLocReq : Bool)
    (isLate : Bool) (lateBy : Option Int) : MarkOutcome :=
  match locationGate env p session isLocReq with
  | (.error reason, vc) => ⟨.rejected 403 reason, vc⟩
  | (.ok verRes, vc) =>
    -- Both gate branches have set the controller's `locationVerified`
    -- variable to `true` at this point; the line-489/503 assertions
    -- re-check it and the presence of the result.
    if isLocReq && !true then
      ⟨.rejected 403 .locationVerificationFailed, vc⟩
    else if isLocReq && verRes.isNone then
      ⟨.rejected 403 .missingVerificationResult, vc⟩
    else
      match deviceCheck user p.deviceId p.userAgent with
      | .error r => ⟨.rejected 403 r, vc⟩
      | .ok userAfter =>
        commitAttendance req env p isLocReq true verRes
          isLate lateBy userAfter vc

/-- The full `markAttendance` admission pipeline in source order: strict
payload validation, platform-owner block, session-id format, settings with
defaults, user/session fetch, schedule check, duplicate check, early-window
check, lateness classification, assignment lookup, location gate, device
guard, commit. -/
def markAttendance (req : ScanRequest) (env : Env) : MarkOutcome :=
  match validatePayload req with
  | .error (c, r) => ⟨.rejected c r, false⟩
  | .ok p =>
    if req.role == "PLATFORM_OWNER" then ⟨.rejected 403 .platformOwnerForbidden, false⟩
    else if !req.sessionIdValid then ⟨.rejected 400 .invalidSessionId, false⟩
    else
      let settings := effectiveSettings env.settings
      match env.user, env.session with
      | none, _ => ⟨.rejected 404 .userNotFound, false⟩
      | some _, none => ⟨.rejected 404 .sessionNotFound, false⟩
      | some user, some session =>
        let nowIST := env.nowUTC + istOffsetMs
        let todayIST := dayStart nowIST
        if !isSessionDateToday session todayIST nowIST then
          ⟨.rejected 400 .notScheduledToday, false⟩
        else if duplicateExists env.db req.userId req.sessionId
            session.frequency todayIST then
          ⟨.rejected 400 .duplicateAttendance, false⟩
        else
          let ssdt := sessionStartDateTime session todayIST
          match tooEarlyCheck nowIST ssdt with
          | some r => ⟨.rejected 400 r, false⟩
          | none =>
            match classifyLateness nowIST ssdt settings.1 settings.2 with
            | .rejectStrict m s => ⟨.rejected 400 (.strictModeLate m s), false⟩
            | .proceed isLate lateBy =>
              match session.assignedUsers.find? (fun a => a.userId == req.userId) with
              | none => ⟨.rejected 403 .notAssigned, false⟩
              | some assignment =>
                locationDeviceCommit req env p user session
                  (isLocationRequired session.sessionType assignment.mode) isLate lateBy

/-! ## The force-mark path (`forceMarkAttendance`, controller lines 949–1078) -/

/-- The request surface of `forceMarkAttendance`. -/
structure ForceRequest where
  role : String
  sessionId : String
  sessionIdValid : Bool
  userId : String
  userIdValid : Bool
  forcedStatus : String
deriving DecidableEq, Repr

/-- Result of a `forceMarkAttendance` call. -/
inductive ForceResult where
  | rejected (status : Nat) (msg : String)
  | presentUpdated (record : Attendance)
  | presentCreated (record : Attendance)
  | absentRemoved
deriving DecidableEq, Repr

/-- `forceMarkAttendance`: the Platform-Owner-only correction path.  For
`Present` it updates any existing `(userId, sessionId)` record to
`locationVerified = true` (resetting lateness) or creates a fresh record with
`locationVerified = true` and the `FORCED_BY_PLATFORM_OWNER` device marker.
It performs no location verification of any kind. -/
def forceMarkAttendance (req : ForceRequest) (user : Option User)
    (session : Option Session) (db : List Attendance) (nowUTC : Int) : ForceResult :=
  if req.role ≠ "PLATFORM_OWNER" then
    .rejected 403 "Forbidden: Only Platform Owner can force mark attendance"
  else if !req.sessionIdValid then .rejected 400 "Invalid Session ID"
  else if !req.userIdValid then .rejected 400 "Invalid User ID"
  else if req.forcedStatus ≠ "Present" ∧ req.forcedStatus ≠ "Absent" then
    .rejected 400 "Status must be either Present or Absent"
  else
    match user, session with
    | none, _ => .rejected 404 "User not found"
    | some _, none => .rejected 404 "Session not found"
    | some _, some _ =>
      if req.forcedStatus = "Present" then
        match db.find? (fun r => r.userId == req.userId && r.sessionId == req.sessionId) with
        | some r =>
          .presentUpdated { r with locationVerified := true, isLate := false,
                                   lateByMinutes := none }
        | none =>
          .presentCreated
            { userId := req.userId
              sessionId := req.sessionId
              checkInTime := nowUTC
              locationVerified := true
              isLate := false
              lateByMinutes := none
              userLocation := none
              deviceId := "FORCED_BY_PLATFORM_OWNER"
              reverseGeocodeSnapshot := none
              confidenceScore := none
              accuracyRadius := none }
      else .absentRemoved

/-! ## Concrete fixtures

Concrete sessions, users, requests and environments used to instantiate the
theorems below on executable inputs. -/

/-- A sample reverse-geocode snapshot. -/
def rgW : ReverseGeocode := ⟨"New Delhi", "Delhi", "CP", "ND", "110001", "addr"⟩

/-- A verification oracle that always succeeds with a fully populated result. -/
def okOracleW : Rat → Rat → Rat → Option String → Option String → Option GeoPoly →
    VerifyOutcome :=
  fun _ _ _ _ _ _ => .returns ⟨true, some 1, some 10, some rgW, none⟩

/-- A daily PHYSICAL session starting 05:30 IST, open-ended, one assigned user. -/
def sessW : Session :=
  { frequency := .daily, startDate := 0, endDate := none, startHour := 5,
    startMinute := 30, sessionType := .physical, weeklyDays := [], city := none,
    stateName := none, geofence := none, location := none,
    assignedUsers := [⟨"u1", .physical⟩] }

/-- A user with no device binding yet. -/
def userW : User := ⟨"u1", none, none⟩

/-- An environment whose current instant is exactly 05:30 IST on day 20000. -/
def envW : Env :=
  { nowUTC := 86400000 * 20000, user := some userW, session := some sessW, db := [],
    settings := .notFound, verify := okOracleW }

/-- A well-formed check-in request for `sessW`. -/
def reqW : ScanRequest :=
  { userId := "u1", role := "EndUser", sessionId := "s1", sessionIdValid := true,
    userLocation := some (some 28, some 77), deviceId := some "d1",
    userAgent := some "ua1", accuracy := some 10 }

/-- The payload `validatePayload` extracts from `reqW`. -/
def pW : ValidPayload := ⟨28, 77, 10, "d1", "ua1"⟩

/-- The attendance record `markAttendance reqW envW` creates. -/
def recW : Attendance :=
  { userId := "u1", sessionId := "s1", checkInTime := 86400000 * 20000,
    locationVerified := true, isLate := false, lateByMinutes := none,
    userLocation := some (28, 77), deviceId := "d1",
    reverseGeocodeSnapshot := some rgW, confidenceScore := some 1,
    accuracyRadius := some 10 }

/-- The user state after first-time device binding of `userW`. -/
def uAW : User := ⟨"u1", some "d1", some "ua1"⟩

/-- A PHYSICAL session whose LINK-type location descriptor carries no resolvable
coordinates, and which has no city, state or geofence configured either: the
failing input for the session-location-configured check. -/
def sessionC2 : Session :=
  { frequency := .daily, startDate := 0, endDate := none, startHour := 5,
    startMinute := 30, sessionType := .physical, weeklyDays := [], city := none,
    stateName := none, geofence := none,
    location := some ⟨"LINK", none, some "https://maps.example/location-link"⟩,
    assignedUsers := [⟨"u1", .physical⟩] }

/-- `envW` with the LINK-descriptor session. -/
def envC2 : Env :=
  { nowUTC := 86400000 * 20000, user := some userW, session := some sessionC2,
    db := [], settings := .notFound, verify := okOracleW }

/-- A one-time PHYSICAL session used by the force-mark counterexample. -/
def sessionCx1 : Session :=
  { frequency := .oneTime, startDate := 0, endDate := none, startHour := 9,
    startMinute := 0, sessionType := .physical, weeklyDays := [], city := none,
    stateName := none, geofence := none, location := none,
    assignedUsers := [⟨"u1", .physical⟩] }

/-- The target user of the force-mark counterexample. -/
def userCx1 : User := ⟨"u1", none, none⟩

/-- A Platform-Owner force-mark request setting `u1` Present in `s1`. -/
def forceReqCx1 : ForceRequest := ⟨"PLATFORM_OWNER", "s1", true, "u1", true, "Present"⟩

/-- Claim C1 as stated, read at the force-mark entry point: `forceMarkAttendance`
has no access to the location-verification contract (its embedding takes no
verification oracle, mirroring the source, which performs no verification), so
the claim that `locationVerified = true` records exist only after a successful
`verifyLocation` call for the attempt requires the force-mark path never to
produce such a record for a PHYSICAL session. -/
def forceMarkNeverLocationVerified : Prop :=
  ∀ (req : ForceRequest) (user : User) (session : Session) (db : List Attendance)
    (now : Int) (rec : Attendance),
    session.sessionType = SessionType.physical →
    (forceMarkAttendance req (some user) (some session) db now = .presentCreated rec ∨
     forceMarkAttendance req (some user) (some session) db now = .presentUpdated rec) →
    rec.locationVerified = false

/-- `sessW` as a Weekly session listing one weekday. -/
def sessWeeklyW : Session :=
  { sessW with frequency := .weekly, weeklyDays := ["Thursday"] }

/-- `sessW` as a Weekly session with an empty `weeklyDays` list. -/
def sessWeeklyEmptyW : Session :=
  { sessW with frequency := .weekly, weeklyDays := [] }

/-- A one-time session dated tomorrow relative to `envW`. -/
def sessNotTodayW : Session :=
  { sessW with frequency := .oneTime, startDate := 86400000 * 20001 }

/-- A user already bound to device `d1` and user agent `ua1`. -/
def userRegW : User := ⟨"u1", some "d1", some "ua1"⟩

/-- A user bound to a different device. -/
def userOtherW : User := ⟨"u1", some "dOther", some "ua1"⟩

/-- `reqW` with a missing latitude. -/
def reqNoLatW : ScanRequest := { reqW with userLocation := some (none, some 77) }

/-- `reqW` reporting the `(0,0)` sentinel position. -/
def reqZeroW : ScanRequest := { reqW with userLocation := some (some 0, some 0) }

/-- `reqW` with no accuracy value. -/
def reqNoAccW : ScanRequest := { reqW with accuracy := none }

/-- `reqW` with an accuracy radius beyond the 1000 m limit. -/
def reqBadAccW : ScanRequest := { reqW with accuracy := some 2000 }

/-- `reqW` with the accuracy radius exactly at the 1000 m limit. -/
def reqEdgeAccW : ScanRequest := { reqW with accuracy := some 1000 }

/-- `sessW` as a REMOTE session. -/
def sessRemoteW : Session := { sessW with sessionType := .remote }

/-- `envW` with the REMOTE session. -/
def envRemoteW : Env := { envW with session := some sessRemoteW }

/-! ## Helper lemmas -/

set_option maxRecDepth 10000

theorem divInt60000_nonpos {a : Int} (h : a ≤ 0) : Rat.divInt a 60000 ≤ 0 := by
  rw [show (0:Rat) = Rat.divInt 0 60000 from (Rat.zero_divInt _).symm,
    Rat.divInt_le_divInt (by norm_num) (by norm_num)]
  nlinarith

/-- A UTC instant lies inside today's IST day window (converted to UTC bounds)
exactly when its IST calendar day is today. -/
theorem istDay_window {c todayIST : Int} (hT : dayStart todayIST = todayIST) :
    (todayIST - istOffsetMs ≤ c ∧ c ≤ todayIST + (msPerDay - 1) - istOffsetMs) ↔
      istDayOf c = todayIST := by
  simp only [dayStart, istDayOf, msPerDay, istOffsetMs] at *
  omega

/-- A request that passes the strict-validation block carries exactly the
extracted payload fields. -/
theorem validatePayload_ok_inv {req : ScanRequest} {p : ValidPayload}
    (h : validatePayload req = .ok p) :
    req.deviceId = some p.deviceId ∧ req.userAgent = some p.userAgent ∧
    req.userLocation = some (some p.lat, some p.lng) ∧ req.accuracy = some p.acc := by
  unfold validatePayload at h
  split at h
  · exact absurd h (by simp)
  next d hd =>
    split at h
    · exact absurd h (by simp)
    next h1 =>
      split at h
      · exact absurd h (by simp)
      next ua hu =>
        split at h
        · exact absurd h (by simp)
        next h2 =>
          split at h
          · exact absurd h (by simp)
          next latOpt lngOpt hl =>
            split at h
            next lat lng hlat hlng =>
              split at h
              · exact absurd h (by simp)
              next h3 =>
                split at h
                · exact absurd h (by simp)
                next acc ha =>
                  split at h
                  · exact absurd h (by simp)
                  next h4 =>
                    simp only [Except.ok.injEq] at h
                    subst h
                    exact ⟨hd, hu, by simp [hl], ha⟩
            next => exact absurd h (by simp)

/-- What a non-error location gate implies: when verification was required, the
oracle was invoked on the attempt's payload and returned a valid result. -/
theorem locationGate_ok_inv {env : Env} {p : ValidPayload} {session : Session}
    {isLocReq : Bool} {verRes : Option LocationVerificationResult} {vc : Bool}
    (h : locationGate env p session isLocReq = (.ok verRes, vc)) :
    (isLocReq = true →
      ∃ r, verRes = some r ∧
        env.verify p.lat p.lng p.acc session.city session.stateName session.geofence =
          .returns r ∧ r.isValid = true ∧ vc = true) ∧
    (isLocReq = false → verRes = none ∧ vc = false) := by
  unfold locationGate at h
  split at h
  next hreq =>
    constructor
    · intro _
      split at h
      · exact absurd h (by simp)
      · exact absurd h (by simp)
      next r hver =>
        split at h
        · exact absurd h (by simp)
        next hval =>
          split at h
          · exact absurd h (by simp)
          next hflds =>
            simp only [Prod.mk.injEq, Except.ok.injEq] at h
            exact ⟨r, h.1.symm, hver, by simpa using hval, h.2.symm⟩
    · intro hf; rw [hf] at hreq; exact absurd hreq (by simp)
  next hreq =>
    refine ⟨fun ht => ?_, fun _ => ?_⟩
    · rw [ht] at hreq; exact absurd rfl hreq
    · simp only [Prod.mk.injEq, Except.ok.injEq] at h
      exact ⟨h.1.symm, h.2.symm⟩

/-- Field-level description of a committed attendance record. -/
theorem commitAttendance_created_inv {req : ScanRequest} {env : Env} {p : ValidPayload}
    {isLocReq : Bool} {verRes : Option LocationVerificationResult}
    {isLate : Bool} {lateBy : Option Int} {uA : User} {vc : Bool}
    {rec : Attendance} {uAfter : User} {vc' : Bool}
    (h : commitAttendance req env p isLocReq true verRes isLate lateBy uA vc =
      ⟨.created rec uAfter, vc'⟩) :
    uAfter = uA ∧ vc' = vc ∧
    rec.userId = req.userId ∧ rec.sessionId = req.sessionId ∧
    rec.checkInTime = env.nowUTC ∧ rec.locationVerified = true ∧
    rec.isLate = isLate ∧ rec.lateByMinutes = lateBy ∧
    rec.userLocation = some (p.lat, p.lng) ∧ rec.deviceId = p.deviceId ∧
    (isLocReq = true → ∃ r, verRes = some r ∧ r.isValid = true) := by
  unfold commitAttendance at h
  split at h
  next hreq =>
    split at h
    · exact absurd h (by simp)
    next =>
      split at h
      · exact absurd h (by simp)
      next r =>
        split at h
        · exact absurd h (by simp)
        next hval =>
          split at h
          · exact absurd h (by simp)
          next hflds =>
            simp only [] at h
            split at h
            · exact absurd h (by simp)
            next =>
              simp only [MarkOutcome.mk.injEq, ScanResult.created.injEq] at h
              obtain ⟨⟨hrec, hua⟩, hvc⟩ := h
              subst hrec; subst hua; subst hvc
              refine ⟨rfl, rfl, rfl, rfl, rfl, rfl, rfl, rfl, rfl, rfl,
                fun _ => ⟨r, rfl, ?_⟩⟩
              simpa using hval
  next hreq =>
    simp only [MarkOutcome.mk.injEq, ScanResult.created.injEq] at h
    obtain ⟨⟨hrec, hua⟩, hvc⟩ := h
    subst hrec; subst hua; subst hvc
    refine ⟨rfl, rfl, rfl, rfl, rfl, rfl, rfl, rfl, rfl, rfl, fun ht => absurd ht ?_⟩
    simpa using hreq

/-- Inversion of the pipeline tail: a created record passed the location gate,
the device guard and the commit assertions. -/
theorem locationDeviceCommit_created_inv {req : ScanRequest} {env : Env}
    {p : ValidPayload} {user : User} {session : Session} {isLocReq : Bool}
    {isLate : Bool} {lateBy : Option Int} {rec : Attendance} {uAfter : User} {vc : Bool}
    (h : locationDeviceCommit req env p user session isLocReq isLate lateBy =
      ⟨.created rec uAfter, vc⟩) :
    ∃ verRes,
      locationGate env p session isLocReq = (.ok verRes, vc) ∧
      deviceCheck user p.deviceId p.userAgent = .ok uAfter ∧
      commitAttendance req env p isLocReq true verRes isLate lateBy uAfter vc =
        ⟨.created rec uAfter, vc⟩ := by
  unfold locationDeviceCommit at h
  split at h
  · exact absurd h (by simp)
  next verRes vc' hg =>
    split at h
    · exact absurd h (by simp)
    next =>
      split at h
      · exact absurd h (by simp)
      next =>
        split at h
        · exact absurd h (by simp)
        next uA hdev =>
          have hinv := commitAttendance_created_inv h
          obtain ⟨hua, hvc, _⟩ := hinv
          subst hua; subst hvc
          exact ⟨verRes, hg, hdev, h⟩

/-- Inversion of the full pipeline: a created record implies every earlier
stage passed, in the fixed source order. -/
theorem markAttendance_created_inv {req : ScanRequest} {env : Env}
    {rec : Attendance} {uAfter : User} {vc : Bool}
    (h : markAttendance req env = ⟨.created rec uAfter, vc⟩) :
    ∃ p user session assignment isLate lateBy,
      validatePayload req = .ok p ∧
      env.user = some user ∧ env.session = some session ∧
      isSessionDateToday session (dayStart (env.nowUTC + istOffsetMs))
        (env.nowUTC + istOffsetMs) = true ∧
      duplicateExists env.db req.userId req.sessionId session.frequency
        (dayStart (env.nowUTC + istOffsetMs)) = false ∧
      session.assignedUsers.find? (fun a => a.userId == req.userId) = some assignment ∧
      classifyLateness (env.nowUTC + istOffsetMs)
          (sessionStartDateTime session (dayStart (env.nowUTC + istOffsetMs)))
          (effectiveSettings env.settings).1 (effectiveSettings env.settings).2 =
        .proceed isLate lateBy ∧
      locationDeviceCommit req env p user session
          (isLocationRequired session.sessionType assignment.mode) isLate lateBy =
        ⟨.created rec uAfter, vc⟩ := by
  unfold markAttendance at h
  split at h
  · exact absurd h (by simp)
  next p hval =>
    split at h
    · exact absurd h (by simp)
    next hrole =>
      split at h
      · exact absurd h (by simp)
      next hsid =>
        split at h
        · exact absurd h (by simp)
        · exact absurd h (by simp)
        next user session huser hsession =>
          simp only [] at h
          split at h
          · exact absurd h (by simp)
          next hsched =>
            split at h
            · exact absurd h (by simp)
            next hdup =>
              split at h
              · exact absurd h (by simp)
              next hEarly =>
                split at h
                · exact absurd h (by simp)
                next isLate lateBy hlate =>
                  split at h
                  · exact absurd h (by simp)
                  next assignment hassign =>
                    exact ⟨p, user, session, assignment, isLate, lateBy, hval,
                      huser, hsession, by simpa using hsched, by simpa using hdup,
                      hassign, hlate, h⟩

/-! ## Claim C1 -/

/-- C1 (amended): in the `markAttendance` pipeline, whenever location
verification is required for the attempt — the session is PHYSICAL, or HYBRID
with this user assigned in PHYSICAL mode — a created attendance record has
`locationVerified = true`, and the external verification contract was invoked
with that exact attempt's coordinates and accuracy and returned a result with
`isValid = true`.  (The Platform-Owner force-mark path is exempt; see the
counterexample.) -/
theorem c1_location_hard_gate (req : ScanRequest) (env : Env)
    (rec : Attendance) (uA : User) (vc : Bool) (user : User) (session : Session)
    (assignment : Assignment)
    (h : markAttendance req env = ⟨.created rec uA, vc⟩)
    (hu : env.user = some user) (hs : env.session = some session)
    (ha : session.assignedUsers.find? (fun a => a.userId == req.userId) = some assignment)
    (hreq : isLocationRequired session.sessionType assignment.mode = true) :
    rec.locationVerified = true ∧
    ∃ lat lng acc r,
      req.userLocation = some (some lat, some lng) ∧ req.accuracy = some acc ∧
      env.verify lat lng acc session.city session.stateName session.geofence =
        .returns r ∧
      r.isValid = true ∧ vc = true := by
  obtain ⟨p, user', session', assignment', isLate, lateBy, hval, hu', hs', _, _,
    hassign', hlate, hrest⟩ := markAttendance_created_inv h
  rw [hu] at hu'; injection hu' with hu'; subst hu'
  rw [hs] at hs'; injection hs' with hs'; subst hs'
  rw [ha] at hassign'; injection hassign' with h'; subst h'
  obtain ⟨verRes, hg, hdev, hcommit⟩ := locationDeviceCommit_created_inv hrest
  obtain ⟨hreqPart, _⟩ := locationGate_ok_inv hg
  obtain ⟨r, hvr, hcall, hvalid, hvc⟩ := hreqPart hreq
  obtain ⟨_, _, _, _, _, hlv, _⟩ := commitAttendance_created_inv hcommit
  obtain ⟨hd, hua2, hloc, hacc⟩ := validatePayload_ok_inv hval
  exact ⟨hlv, p.lat, p.lng, p.acc, r, hloc, hacc, hcall, hvalid, hvc⟩

/-- C1 counterexample: the claim as stated is false for the repository as a
whole — a concrete Platform-Owner `forceMarkAttendance` call on a PHYSICAL
session creates an attendance record with `locationVerified = true` although
the location-verification contract was never invoked. -/
theorem c1_counterexample_force_mark : ¬ forceMarkNeverLocationVerified := by
  intro hclaim
  have h := hclaim forceReqCx1 userCx1 sessionCx1 [] 0
    ⟨"u1", "s1", 0, true, false, none, none, "FORCED_BY_PLATFORM_OWNER", none, none, none⟩
    rfl (Or.inl (by decide))
  simp at h

/-- C1 witness: the amended theorem applied to a concrete accepted PHYSICAL
check-in. -/
theorem c1_witness :
    recW.locationVerified = true ∧
    ∃ lat lng acc r,
      reqW.userLocation = some (some lat, some lng) ∧ reqW.accuracy = some acc ∧
      envW.verify lat lng acc sessW.city sessW.stateName sessW.geofence = .returns r ∧
      r.isValid = true ∧ (true : Bool) = true :=
  c1_location_hard_gate reqW envW recW uAW true userW sessW ⟨"u1", .physical⟩
    (by decide) rfl rfl (by decide) (by decide)

/-! ## Claim C2 -/

/-- C2: evaluated at the failing input — a PHYSICAL session whose LINK-type
location descriptor has no resolvable coordinates (and no city, state or
geofence configured): `markAttendance` does not reject the attempt as
`SESSION_LOCATION_NOT_CONFIGURED` (no such check exists anywhere in the
controller, which is why the embedding's `Reason` type has no such
constructor); it invokes the external verification contract, and when that
contract succeeds it creates an attendance record with
`locationVerified = true`.  This contradicts the claim, the repository's own
test suite (`attendanceController.test.ts`) and its `TEST_SUMMARY.md`. -/
theorem c2_no_session_location_configured_check :
    (markAttendance reqW envC2).verifyCalled = true ∧
    markAttendance reqW envC2 = ⟨.created recW uAW, true⟩ ∧
    sessionC2.location = some ⟨"LINK", none, some "https://maps.example/location-link"⟩ ∧
    sessionC2.sessionType = SessionType.physical :=
  ⟨by decide, by decide, rfl, rfl⟩

/-! ## Claim C3 -/

/-- C3: the duplicate check matches any `(userId, sessionId)` record for
OneTime sessions regardless of date; for recurring sessions it matches exactly
the records whose `checkInTime` falls in today's IST calendar day, via the
local-day window converted to UTC bounds; and whenever a matching record
exists the attempt is rejected with no external verification call. -/
theorem c3_duplicate_check :
    (∀ (db : List Attendance) (u s : String) (todayIST : Int),
      duplicateExists db u s Frequency.oneTime todayIST = true ↔
        ∃ r ∈ db, r.userId = u ∧ r.sessionId = s) ∧
    (∀ (db : List Attendance) (u s : String) (freq : Frequency) (todayIST : Int),
      freq ≠ Frequency.oneTime → dayStart todayIST = todayIST →
      (duplicateExists db u s freq todayIST = true ↔
        ∃ r ∈ db, r.userId = u ∧ r.sessionId = s ∧ istDayOf r.checkInTime = todayIST)) ∧
    (∀ req env (p : ValidPayload) user session,
      validatePayload req = .ok p →
      (req.role == "PLATFORM_OWNER") = false → req.sessionIdValid = true →
      env.user = some user → env.session = some session →
      isSessionDateToday session (dayStart (env.nowUTC + istOffsetMs))
        (env.nowUTC + istOffsetMs) = true →
      duplicateExists env.db req.userId req.sessionId session.frequency
        (dayStart (env.nowUTC + istOffsetMs)) = true →
      markAttendance req env = ⟨.rejected 400 .duplicateAttendance, false⟩) := by
  refine ⟨?_, ?_, ?_⟩
  · intro db u s todayIST
    unfold duplicateExists
    rw [List.any_eq_true]
    constructor
    · rintro ⟨r, hr, hmatch⟩
      simp only [Bool.and_eq_true, beq_iff_eq] at hmatch
      exact ⟨r, hr, hmatch⟩
    · rintro ⟨r, hr, h1, h2⟩
      exact ⟨r, hr, by simp [h1, h2]⟩
  · intro db u s freq todayIST hfreq hT
    have hred : duplicateExists db u s freq todayIST =
        db.any (fun r =>
          r.userId == u && r.sessionId == s &&
            decide (todayIST - istOffsetMs ≤ r.checkInTime) &&
            decide (r.checkInTime ≤ todayIST + (msPerDay - 1) - istOffsetMs)) := by
      cases freq with
      | oneTime => exact absurd rfl hfreq
      | daily => rfl
      | weekly => rfl
      | monthly => rfl
    rw [hred, List.any_eq_true]
    constructor
    · rintro ⟨r, hr, hmatch⟩
      simp only [Bool.and_eq_true, beq_iff_eq, decide_eq_true_eq] at hmatch
      exact ⟨r, hr, hmatch.1.1.1, hmatch.1.1.2,
        (istDay_window hT).mp ⟨hmatch.1.2, hmatch.2⟩⟩
    · rintro ⟨r, hr, h1, h2, h3⟩
      have hw := (istDay_window hT).mpr h3
      exact ⟨r, hr, by simp [h1, h2, hw.1, hw.2]⟩
  · intro req env p user session hval hrole hsid hu hs hsched hdup
    unfold markAttendance
    rw [hval]
    simp only [hrole, Bool.false_eq_true, if_false, hsid, Bool.not_true, hu, hs]
    simp only [hsched, Bool.not_true, Bool.false_eq_true, if_false, hdup, if_true]

/-- C3 witness: the duplicate key semantics and the rejection, on concrete
records and a concrete environment holding an existing record. -/
theorem c3_witness :
    duplicateExists [recW] "u1" "s1" Frequency.oneTime 0 = true ∧
    duplicateExists [recW] "u1" "s1" Frequency.daily (86400000 * 20000) = true ∧
    markAttendance reqW { envW with db := [recW] } =
      ⟨.rejected 400 .duplicateAttendance, false⟩ := by
  refine ⟨?_, ?_, ?_⟩
  · exact (c3_duplicate_check.1 [recW] "u1" "s1" 0).mpr ⟨recW, by decide, rfl, rfl⟩
  · exact (c3_duplicate_check.2.1 [recW] "u1" "s1" Frequency.daily (86400000 * 20000)
      (by decide) (by decide)).mpr ⟨recW, by decide, rfl, rfl, by decide⟩
  · exact c3_duplicate_check.2.2 reqW { envW with db := [recW] } pW userW sessW
      rfl (by decide) rfl rfl rfl (by decide) (by decide)

/-! ## Claim C4 -/

/-- C4: lateness classification.  With `td` the exact minute difference
`(now − sessionStart) / 60000`: inside the grace window (`0 < td ≤ lateLimit`)
the attempt proceeds marked late with `lateByMinutes = ⌊td⌋`; beyond the limit
it is rejected under strict mode (reporting floor minutes and seconds late)
and proceeds marked late otherwise; at and before the boundary
`now = sessionStart` (with a non-negative limit) it proceeds on time.  A
created record carries exactly the classification's `isLate`/`lateByMinutes`. -/
theorem c4_lateness_classification (nowIST ssdt : Int) (lateLimit : Rat) (strict : Bool) :
    (0 < Rat.divInt (nowIST - ssdt) 60000 → Rat.divInt (nowIST - ssdt) 60000 ≤ lateLimit →
      classifyLateness nowIST ssdt lateLimit strict =
        .proceed true (some (Rat.divInt (nowIST - ssdt) 60000).floor)) ∧
    (lateLimit < Rat.divInt (nowIST - ssdt) 60000 → strict = true →
      classifyLateness nowIST ssdt lateLimit strict =
        .rejectStrict (Rat.divInt (nowIST - ssdt) 60000).floor
          (Int.fdiv (Int.tmod (nowIST - ssdt) 60000) 1000)) ∧
    (lateLimit < Rat.divInt (nowIST - ssdt) 60000 → strict = false →
      classifyLateness nowIST ssdt lateLimit strict =
        .proceed true (some (Rat.divInt (nowIST - ssdt) 60000).floor)) ∧
    (nowIST ≤ ssdt → 0 ≤ lateLimit →
      classifyLateness nowIST ssdt lateLimit strict = .proceed false none) ∧
    (∀ (req : ScanRequest) (env : Env) rec uA vc,
      markAttendance req env = ⟨.created rec uA, vc⟩ →
      ∃ session, env.session = some session ∧
        classifyLateness (env.nowUTC + istOffsetMs)
            (sessionStartDateTime session (dayStart (env.nowUTC + istOffsetMs)))
            (effectiveSettings env.settings).1 (effectiveSettings env.settings).2 =
          .proceed rec.isLate rec.lateByMinutes) := by
  refine ⟨?_, ?_, ?_, ?_, ?_⟩
  · intro h1 h2
    unfold classifyLateness
    rw [if_pos ⟨h1, h2⟩]
  · intro h1 h2
    unfold classifyLateness
    rw [if_neg (by rintro ⟨_, hle⟩; exact absurd h1 (not_lt.mpr hle)), if_pos h1, h2,
      if_pos rfl]
  · intro h1 h2
    unfold classifyLateness
    rw [if_neg (by rintro ⟨_, hle⟩; exact absurd h1 (not_lt.mpr hle)), if_pos h1, h2]
    simp
  · intro h1 h2
    have hnp : Rat.divInt (nowIST - ssdt) 60000 ≤ 0 := divInt60000_nonpos (by omega)
    unfold classifyLateness
    rw [if_neg (by rintro ⟨hpos, _⟩; exact absurd hpos (not_lt.mpr hnp)),
      if_neg (not_lt.mpr (hnp.trans h2))]
  · intro req env rec uA vc h
    obtain ⟨p, user, session, assignment, isLate, lateBy, hval, hu, hs, hsched, hdup,
      hassign, hlate, hrest⟩ := markAttendance_created_inv h
    obtain ⟨verRes, hg, hdev, hcommit⟩ := locationDeviceCommit_created_inv hrest
    obtain ⟨_, _, _, _, _, _, hIsLate, hLateBy, _⟩ := commitAttendance_created_inv hcommit
    exact ⟨session, hs, by rw [hIsLate, hLateBy]; exact hlate⟩

/-- C4 witness: the four classification cases at concrete instants (5 minutes
late within a 30-minute limit; 35 minutes late under strict and non-strict
mode; exactly on time), and the record linkage on a concrete accepted run. -/
theorem c4_witness :
    classifyLateness 300000 0 30 false = .proceed true (some 5) ∧
    classifyLateness 2100000 0 30 true = .rejectStrict 35 0 ∧
    classifyLateness 2100000 0 30 false = .proceed true (some 35) ∧
    classifyLateness 0 0 30 true = .proceed false none ∧
    ∃ session, envW.session = some session ∧
      classifyLateness (envW.nowUTC + istOffsetMs)
          (sessionStartDateTime session (dayStart (envW.nowUTC + istOffsetMs)))
          (effectiveSettings envW.settings).1 (effectiveSettings envW.settings).2 =
        .proceed recW.isLate recW.lateByMinutes := by
  refine ⟨?_, ?_, ?_, ?_, ?_⟩
  · have h := (c4_lateness_classification 300000 0 30 false).1 (by decide) (by decide)
    rw [h]; decide
  · have h := (c4_lateness_classification 2100000 0 30 true).2.1 (by decide) rfl
    rw [h]; decide
  · have h := (c4_lateness_classification 2100000 0 30 false).2.2.1 (by decide) rfl
    rw [h]; decide
  · exact (c4_lateness_classification 0 0 30 true).2.2.2.1 le_rfl (by decide)
  · exact (c4_lateness_classification 0 0 0 false).2.2.2.2 reqW envW recW uAW true
      (by decide)

/-! ## Claim C5 -/

/-- C5: the two-hour scan window.  With `scanWindowStart = sessionStart − 2h`,
any attempt strictly before the window is rejected as too early, reporting the
floor hours and residual minutes remaining plus the formatted session-start
and window-open times; at the exact boundary `now = scanWindowStart` (and
later) the window is open; and in the pipeline the rejection carries exactly
those fields with no external verification call. -/
theorem c5_scan_window :
    (∀ nowIST ssdt : Int, nowIST < ssdt - 2 * 3600000 →
      tooEarlyCheck nowIST ssdt =
        some (.tooEarly ((ssdt - 2 * 3600000 - nowIST) / 3600000)
          (((ssdt - 2 * 3600000 - nowIST) % 3600000) / 60000)
          (formatTime12h ssdt) (formatTime12h (ssdt - 2 * 3600000)))) ∧
    (∀ nowIST ssdt : Int, ssdt - 2 * 3600000 ≤ nowIST →
      tooEarlyCheck nowIST ssdt = none) ∧
    (∀ req env (p : ValidPayload) user session,
      validatePayload req = .ok p →
      (req.role == "PLATFORM_OWNER") = false → req.sessionIdValid = true →
      env.user = some user → env.session = some session →
      isSessionDateToday session (dayStart (env.nowUTC + istOffsetMs))
        (env.nowUTC + istOffsetMs) = true →
      duplicateExists env.db req.userId req.sessionId session.frequency
        (dayStart (env.nowUTC + istOffsetMs)) = false →
      env.nowUTC + istOffsetMs <
        sessionStartDateTime session (dayStart (env.nowUTC + istOffsetMs)) - 2 * 3600000 →
      markAttendance req env = ⟨.rejected 400 (.tooEarly
        ((sessionStartDateTime session (dayStart (env.nowUTC + istOffsetMs)) - 2 * 3600000 -
            (env.nowUTC + istOffsetMs)) / 3600000)
        (((sessionStartDateTime session (dayStart (env.nowUTC + istOffsetMs)) - 2 * 3600000 -
            (env.nowUTC + istOffsetMs)) % 3600000) / 60000)
        (formatTime12h (sessionStartDateTime session (dayStart (env.nowUTC + istOffsetMs))))
        (formatTime12h (sessionStartDateTime session (dayStart (env.nowUTC + istOffsetMs)) -
            2 * 3600000))), false⟩) := by
  refine ⟨?_, ?_, ?_⟩
  · intro nowIST ssdt h
    unfold tooEarlyCheck
    rw [if_pos h]
  · intro nowIST ssdt h
    unfold tooEarlyCheck
    rw [if_neg (not_lt.mpr h)]
  · intro req env p user session hval hrole hsid hu hs hsched hdup hearly
    unfold markAttendance
    rw [hval]
    simp only [hrole, Bool.false_eq_true, if_false, hsid, Bool.not_true, hu, hs]
    simp only [hsched, Bool.not_true, Bool.false_eq_true, if_false, hdup,
      tooEarlyCheck, if_pos hearly]

/-- C5 witness: a scan three hours early is rejected with one hour remaining;
the exact window boundary is open; and a concrete pipeline run four hours
before a 05:30 session start reports two hours remaining with the formatted
times. -/
theorem c5_witness :
    tooEarlyCheck 0 10800000 = some (.tooEarly 1 0 "3:00 AM" "1:00 AM") ∧
    tooEarlyCheck 3600000 10800000 = none ∧
    markAttendance reqW { envW with nowUTC := 86400000 * 20000 - 14400000 } =
      ⟨.rejected 400 (.tooEarly 2 0 "5:30 AM" "3:30 AM"), false⟩ := by
  refine ⟨?_, ?_, ?_⟩
  · have h := c5_scan_window.1 0 10800000 (by decide)
    rw [h]; decide
  · exact c5_scan_window.2.1 3600000 10800000 (by decide)
  · have h := c5_scan_window.2.2 reqW { envW with nowUTC := 86400000 * 20000 - 14400000 }
      pW userW sessW rfl (by decide) rfl rfl rfl (by decide) (by decide) (by decide)
    rw [h]; decide

/-! ## Claim C6 -/

/-- C6 counterexample: a Weekly session with an empty `weeklyDays` list, with
today inside its date range, is treated by the controller as occurring today,
although today's weekday name is not a member of `weeklyDays` — the claim's
"iff" fails for this input. -/
theorem c6_counterexample_empty_weeklyDays :
    isSessionDateToday sessWeeklyEmptyW 0 0 = true ∧
    occursTodaySpec sessWeeklyEmptyW 0 0 = false ∧
    sessWeeklyEmptyW.frequency = Frequency.weekly ∧
    sessWeeklyEmptyW.weeklyDays.contains (todayDayName 0) = false := by
  refine ⟨by decide, by decide, rfl, by decide⟩

/-- C6 (amended): the schedule resolver agrees with the claim's occurs-today
relation for OneTime, Daily and Monthly sessions and for Weekly sessions whose
`weeklyDays` is non-empty; a Weekly session with an empty (or absent)
`weeklyDays` is instead treated like a Daily session (date range only); and an
attempt on a session not occurring today is rejected as not scheduled today
with no external verification call and regardless of device or location data. -/
theorem c6_schedule_resolver_amended :
    (∀ (s : Session) (todayIST nowIST : Int),
      (s.frequency = Frequency.weekly → s.weeklyDays ≠ []) →
      isSessionDateToday s todayIST nowIST = occursTodaySpec s todayIST nowIST) ∧
    (∀ (s : Session) (todayIST nowIST : Int), s.frequency = Frequency.weekly →
      s.weeklyDays = [] →
      isSessionDateToday s todayIST nowIST =
        occursTodaySpec { s with frequency := Frequency.daily } todayIST nowIST) ∧
    (∀ req env (p : ValidPayload) user session,
      validatePayload req = .ok p →
      (req.role == "PLATFORM_OWNER") = false → req.sessionIdValid = true →
      env.user = some user → env.session = some session →
      isSessionDateToday session (dayStart (env.nowUTC + istOffsetMs))
        (env.nowUTC + istOffsetMs) = false →
      markAttendance req env = ⟨.rejected 400 .notScheduledToday, false⟩) := by
  refine ⟨?_, ?_, ?_⟩
  · intro s todayIST nowIST hweekly
    cases hf : s.frequency with
    | oneTime => simp [isSessionDateToday, occursTodaySpec, hf]
    | daily =>
      simp only [isSessionDateToday, occursTodaySpec, hf]
      cases s.endDate <;> simp [Option.map]
    | monthly =>
      simp only [isSessionDateToday, occursTodaySpec, hf]
      cases s.endDate <;> simp [Option.map]
    | weekly =>
      have hne : s.weeklyDays ≠ [] := hweekly hf
      have hempty : s.weeklyDays.isEmpty = false := by
        cases hw : s.weeklyDays with
        | nil => exact absurd hw hne
        | cons a l => rfl
      simp only [isSessionDateToday, occursTodaySpec, hf]
      cases s.endDate <;> simp [Option.map, hempty]
  · intro s todayIST nowIST hf hempty
    simp only [isSessionDateToday, occursTodaySpec, hf, hempty]
    cases s.endDate <;> simp [Option.map]
  · intro req env p user session hval hrole hsid hu hs hsched
    unfold markAttendance
    rw [hval]
    simp only [hrole, Bool.false_eq_true, if_false, hsid, Bool.not_true, hu, hs]
    simp only [hsched, Bool.not_false, if_true]

/-- C6 witness: the amended equivalence on a Weekly session with one listed
weekday and on a Weekly session with an empty list, and the pipeline rejection
for a session dated tomorrow. -/
theorem c6_witness :
    isSessionDateToday sessWeeklyW 0 0 = occursTodaySpec sessWeeklyW 0 0 ∧
    isSessionDateToday sessWeeklyEmptyW 0 0 =
      occursTodaySpec { sessWeeklyEmptyW with frequency := Frequency.daily } 0 0 ∧
    markAttendance reqW { envW with session := some sessNotTodayW } =
      ⟨.rejected 400 .notScheduledToday, false⟩ := by
  refine ⟨?_, ?_, ?_⟩
  · exact c6_schedule_resolver_amended.1 sessWeeklyW 0 0 (fun _ => by decide)
  · exact c6_schedule_resolver_amended.2.1 sessWeeklyEmptyW 0 0 rfl rfl
  · exact c6_schedule_resolver_amended.2.2 reqW { envW with session := some sessNotTodayW }
      pW userW sessNotTodayW rfl (by decide) rfl rfl rfl (by decide)

/-! ## Claim C7 -/

/-- C7: device binding.  A user with no (truthy) registered device id has the
presented device id and user agent stored as the registered identity and the
check-in permitted; a returning user presenting a different device id is
rejected; a matching device id with a previously recorded, different user
agent is rejected as suspected cloning; with no recorded user agent the
secondary check is skipped; and at pipeline level a created record implies the
presented device id (and, when one was recorded, the user agent) matched the
registered identity — so a mismatch can never produce a record, regardless of
location or schedule. -/
theorem c7_device_binding :
    (∀ (user : User) (d ua : String), jsFalsyStr user.registeredDeviceId = true →
      deviceCheck user d ua =
        .ok { user with registeredDeviceId := some d, registeredUserAgent := some ua }) ∧
    (∀ (user : User) (d ua : String), jsFalsyStr user.registeredDeviceId = false →
      user.registeredDeviceId ≠ some d →
      deviceCheck user d ua = .error .deviceMismatch) ∧
    (∀ (user : User) (d ua : String), user.registeredDeviceId = some d →
      jsFalsyStr user.registeredDeviceId = false →
      jsFalsyStr user.registeredUserAgent = false →
      user.registeredUserAgent ≠ some ua →
      deviceCheck user d ua = .error .cloningDetected) ∧
    (∀ (user : User) (d ua : String), user.registeredDeviceId = some d →
      jsFalsyStr user.registeredDeviceId = false →
      jsFalsyStr user.registeredUserAgent = true →
      deviceCheck user d ua = .ok user) ∧
    (∀ (req : ScanRequest) (env : Env) rec uA vc (user : User),
      markAttendance req env = ⟨.created rec uA, vc⟩ →
      env.user = some user →
      jsFalsyStr user.registeredDeviceId = false →
      user.registeredDeviceId = req.deviceId ∧
      (jsFalsyStr user.registeredUserAgent = false →
        user.registeredUserAgent = req.userAgent)) := by
  refine ⟨?_, ?_, ?_, ?_, ?_⟩
  · intro user d ua h
    unfold deviceCheck
    rw [if_pos h]
  · intro user d ua h1 h2
    unfold deviceCheck
    rw [if_neg (by simp [h1]), if_pos h2]
  · intro user d ua hd h1 h2 h3
    unfold deviceCheck
    rw [if_neg (by simp [h1]), if_neg (by simp [hd]), if_pos (by simp [h2, h3])]
  · intro user d ua hd h1 h2
    unfold deviceCheck
    rw [if_neg (by simp [h1]), if_neg (by simp [hd]), if_neg (by simp [h2])]
  · intro req env rec uA vc user h hu hfalsy
    obtain ⟨p, user', session', assignment', isLate, lateBy, hval, hu', hs', _, _, _,
      _, hrest⟩ := markAttendance_created_inv h
    rw [hu] at hu'; injection hu' with hu'; subst hu'
    obtain ⟨verRes, hg, hdev, hcommit⟩ := locationDeviceCommit_created_inv hrest
    obtain ⟨hd, hua, _, _⟩ := validatePayload_ok_inv hval
    unfold deviceCheck at hdev
    rw [if_neg (by simp [hfalsy])] at hdev
    by_cases hmatch : user.registeredDeviceId = some p.deviceId
    · rw [if_neg (by simp [hmatch])] at hdev
      refine ⟨by rw [hmatch, hd], ?_⟩
      intro hfa
      by_cases huam : user.registeredUserAgent = some p.userAgent
      · rw [huam, hua]
      · rw [if_pos (by simp [hfa, huam])] at hdev
        exact absurd hdev (by simp)
    · rw [if_pos hmatch] at hdev
      exact absurd hdev (by simp)

/-- C7 witness: each device-binding case at concrete users, plus the
pipeline-level conclusion for a concrete accepted run by an already-registered
user. -/
theorem c7_witness :
    deviceCheck userW "d1" "ua1" =
      .ok { userW with registeredDeviceId := some "d1",
                       registeredUserAgent := some "ua1" } ∧
    deviceCheck userOtherW "d1" "ua1" = .error .deviceMismatch ∧
    deviceCheck userRegW "d1" "uaOther" = .error .cloningDetected ∧
    deviceCheck ⟨"u1", some "d1", none⟩ "d1" "uaOther" = .ok ⟨"u1", some "d1", none⟩ ∧
    (userRegW.registeredDeviceId = reqW.deviceId ∧
      (jsFalsyStr userRegW.registeredUserAgent = false →
        userRegW.registeredUserAgent = reqW.userAgent)) := by
  refine ⟨?_, ?_, ?_, ?_, ?_⟩
  · exact c7_device_binding.1 userW "d1" "ua1" (by decide)
  · exact c7_device_binding.2.1 userOtherW "d1" "ua1" (by decide) (by decide)
  · exact c7_device_binding.2.2.1 userRegW "d1" "uaOther" rfl (by decide) (by decide)
      (by decide)
  · exact c7_device_binding.2.2.2.1 ⟨"u1", some "d1", none⟩ "d1" "uaOther" rfl
      (by decide) (by decide)
  · exact c7_device_binding.2.2.2.2 reqW { envW with user := some userRegW } recW
      userRegW true userRegW (by decide) rfl (by decide)

/-! ## Claim C8 -/

/-- C8: raw location-payload validation.  With device id and user agent
present, a missing or non-numeric latitude or longitude is rejected as
`INVALID_LOCATION_COORDS`; exactly `(0,0)` as `INVALID_LOCATION_ZERO`; a
missing or non-numeric accuracy as `MISSING_ACCURACY`; an accuracy `≤ 0` or
`> 1000` as `INVALID_ACCURACY`; and an accuracy exactly at the 1000 m
threshold passes. -/
theorem c8_raw_payload_validation (req : ScanRequest) (d ua : String)
    (hd : req.deviceId = some d) (hd2 : trimIsEmpty d = false)
    (hua : req.userAgent = some ua) (hua2 : trimIsEmpty ua = false) :
    (∀ latOpt lngOpt, req.userLocation = some (latOpt, lngOpt) →
      latOpt = none ∨ lngOpt = none →
      validatePayload req = .error (400, .invalidLocationCoords)) ∧
    (req.userLocation = some (some 0, some 0) →
      validatePayload req = .error (400, .invalidLocationZero)) ∧
    (∀ lat lng, req.userLocation = some (some lat, some lng) → ¬(lat = 0 ∧ lng = 0) →
      req.accuracy = none →
      validatePayload req = .error (400, .missingAccuracy)) ∧
    (∀ lat lng acc, req.userLocation = some (some lat, some lng) → ¬(lat = 0 ∧ lng = 0) →
      req.accuracy = some acc → acc ≤ 0 ∨ 1000 < acc →
      validatePayload req = .error (400, .invalidAccuracy)) ∧
    (∀ lat lng, req.userLocation = some (some lat, some lng) → ¬(lat = 0 ∧ lng = 0) →
      req.accuracy = some 1000 →
      validatePayload req = .ok ⟨lat, lng, 1000, d, ua⟩) := by
  refine ⟨?_, ?_, ?_, ?_, ?_⟩
  · rintro latOpt lngOpt hloc (h | h) <;> subst h
    · simp [validatePayload, hd, hd2, hua, hua2, hloc]
    · cases latOpt <;> simp [validatePayload, hd, hd2, hua, hua2, hloc]
  · intro hloc
    simp [validatePayload, hd, hd2, hua, hua2, hloc]
  · intro lat lng hloc hz hacc
    simp [validatePayload, hd, hd2, hua, hua2, hloc, hz, hacc]
  · intro lat lng acc hloc hz hacc hrange
    simp only [validatePayload, hd, hd2, hua, hua2, hloc, hacc]
    simp [hz, hrange, le_of_lt]
  · intro lat lng hloc hz hacc
    simp [validatePayload, hd, hd2, hua, hua2, hloc, hz, hacc]

/-- C8 witness: each validation outcome on a concrete request, including the
passing 1000 m boundary value. -/
theorem c8_witness :
    validatePayload reqNoLatW = .error (400, .invalidLocationCoords) ∧
    validatePayload reqZeroW = .error (400, .invalidLocationZero) ∧
    validatePayload reqNoAccW = .error (400, .missingAccuracy) ∧
    validatePayload reqBadAccW = .error (400, .invalidAccuracy) ∧
    validatePayload reqEdgeAccW = .ok ⟨28, 77, 1000, "d1", "ua1"⟩ := by
  refine ⟨?_, ?_, ?_, ?_, ?_⟩
  · exact (c8_raw_payload_validation reqNoLatW "d1" "ua1" rfl (by decide) rfl
      (by decide)).1 none (some 77) rfl (Or.inl rfl)
  · exact (c8_raw_payload_validation reqZeroW "d1" "ua1" rfl (by decide) rfl
      (by decide)).2.1 rfl
  · exact (c8_raw_payload_validation reqNoAccW "d1" "ua1" rfl (by decide) rfl
      (by decide)).2.2.1 28 77 rfl (by decide) rfl
  · exact (c8_raw_payload_validation reqBadAccW "d1" "ua1" rfl (by decide) rfl
      (by decide)).2.2.2.1 28 77 2000 rfl (by decide) rfl (Or.inr (by decide))
  · exact (c8_raw_payload_validation reqEdgeAccW "d1" "ua1" rfl (by decide) rfl
      (by decide)).2.2.2.2 28 77 rfl (by decide) rfl

/-! ## Claim C9 -/

/-- C9: when the organization-settings provider throws or returns no settings
document, the pipeline classifies lateness with the documented defaults —
a 30-minute limit and non-strict mode — and behaves identically to an
environment whose settings are exactly those defaults: settings unavailability
never by itself rejects a check-in. -/
theorem c9_settings_defaults :
    effectiveSettings SettingsOutcome.unavailable = (30, false) ∧
    effectiveSettings SettingsOutcome.notFound = (30, false) ∧
    ∀ (req : ScanRequest) (env : Env),
      markAttendance req { env with settings := SettingsOutcome.unavailable } =
        markAttendance req { env with settings := SettingsOutcome.found 30 (some false) } ∧
      markAttendance req { env with settings := SettingsOutcome.notFound } =
        markAttendance req { env with settings := SettingsOutcome.found 30 (some false) } :=
  ⟨rfl, rfl, fun _ _ => ⟨rfl, rfl⟩⟩

/-! ## Claim C10 -/

/-- C10: the raw-payload validation runs unconditionally, before the user or
session is loaded and independent of whether location verification would be
required: any defective payload — missing location object, non-numeric
coordinate, the `(0,0)` sentinel, or a missing/non-positive/over-limit
accuracy — is rejected with status 400, with no verification call, and with an
outcome that does not depend on the environment at all (in particular not on a
REMOTE session type). -/
theorem c10_validation_unconditional (req : ScanRequest) (d ua : String)
    (hd : req.deviceId = some d) (hd2 : trimIsEmpty d = false)
    (hua : req.userAgent = some ua) (hua2 : trimIsEmpty ua = false)
    (hbad :
      req.userLocation = none ∨
      (∃ latOpt lngOpt, req.userLocation = some (latOpt, lngOpt) ∧
        (latOpt = none ∨ lngOpt = none)) ∨
      req.userLocation = some (some 0, some 0) ∨
      (∃ lat lng, req.userLocation = some (some lat, some lng) ∧ ¬(lat = 0 ∧ lng = 0) ∧
        (req.accuracy = none ∨ ∃ acc, req.accuracy = some acc ∧ (acc ≤ 0 ∨ 1000 < acc)))) :
    ∀ env env' : Env,
      (∃ reason, markAttendance req env = ⟨.rejected 400 reason, false⟩) ∧
      markAttendance req env = markAttendance req env' := by
  have herr : ∃ reason, validatePayload req = .error (400, reason) := by
    rcases hbad with h | ⟨latOpt, lngOpt, hloc, h | h⟩ | h |
      ⟨lat, lng, hloc, hz, h | ⟨acc, hacc, hr⟩⟩
    · exact ⟨.missingLocation, by simp [validatePayload, hd, hd2, hua, hua2, h]⟩
    · subst h
      exact ⟨.invalidLocationCoords, by simp [validatePayload, hd, hd2, hua, hua2, hloc]⟩
    · subst h
      refine ⟨.invalidLocationCoords, ?_⟩
      cases latOpt <;> simp [validatePayload, hd, hd2, hua, hua2, hloc]
    · exact ⟨.invalidLocationZero, by simp [validatePayload, hd, hd2, hua, hua2, h]⟩
    · exact ⟨.missingAccuracy, by simp [validatePayload, hd, hd2, hua, hua2, hloc, hz, h]⟩
    · refine ⟨.invalidAccuracy, ?_⟩
      simp only [validatePayload, hd, hd2, hua, hua2, hloc, hacc]
      simp [hz, hr, le_of_lt]
  obtain ⟨reason, herr⟩ := herr
  intro env env'
  have hrun : ∀ e : Env, markAttendance req e = ⟨.rejected 400 reason, false⟩ := by
    intro e
    unfold markAttendance
    rw [herr]
  exact ⟨⟨reason, hrun env⟩, (hrun env).trans (hrun env').symm⟩

/-- C10 witness: an over-limit accuracy is rejected identically in a PHYSICAL
environment and a REMOTE environment (where location verification would not
even be required). -/
theorem c10_witness :
    (∃ reason, markAttendance reqBadAccW envW = ⟨.rejected 400 reason, false⟩) ∧
    markAttendance reqBadAccW envW = markAttendance reqBadAccW envRemoteW :=
  c10_validation_unconditional reqBadAccW "d1" "ua1" rfl (by decide) rfl (by decide)
    (Or.inr (Or.inr (Or.inr ⟨28, 77, rfl, by decide,
      Or.inr ⟨2000, rfl, Or.inr (by decide)⟩⟩)))
    envW envRemoteW

end AttendMark
